/-
Verification of the event queue and plugin pipeline of the StickyQR
analytics SDK (src/core/queue.ts and src/core/analytics.ts), as a shallow
embedding in Lean 4.

Modelling notes.
The runtime is single-threaded and cooperative: between two suspension
points (awaits) all queue mutations are atomic.  The only suspension point
inside Queue.flush is the await on sendBatch, so a flush splits into a
synchronous prefix (the guard, the snapshot-and-clear, the transport call
being issued) and a later settle step (the promise resolving or rejecting).
We model the queue as an explicit state record and each synchronous code
section as a state transformer:
  - flushStart   : the synchronous prefix of Queue.flush (queue.ts 66-76);
  - settleSuccess: the resumption after sendBatch resolves (queue.ts 76-80
                   plus the finally block, queue.ts 96-98);
  - settleFailure: the resumption after sendBatch rejects (queue.ts 81-98);
  - pushOp       : Queue.push (queue.ts 36-61), whose unawaited call to
                   this.flush() runs exactly the synchronous prefix;
  - destroyOp    : Queue.destroy (queue.ts 183-188), which likewise does
                   not await the flush it starts.
Events are opaque payloads to the queue; we represent them by a Nat id.
The calls field counts transport invocations (fetch in sendBatch); the
timerActive field models the periodic flush interval being installed.
-/
import Mathlib

namespace StickyQR

/-- QueueItem (src/types, used in queue.ts 37-41): one queued event with
its retry counter and capture timestamp. -/
structure QueueItem where
  event : Nat
  attempts : Nat
  timestamp : Nat
deriving DecidableEq

/-- QueueConfig (queue.ts 7-20), restricted to the fields that influence
queue control flow.  apiHost, writeKey, debug and flushInterval only feed
the HTTP request and logging and are omitted. -/
structure QueueConfig where
  flushAt : Nat
  maxQueueSize : Nat
  retryAttempts : Nat
deriving DecidableEq

/-- State of one Queue instance (queue.ts 23-26), extended with the
observable effect history: inflight is the batch handed to a pending
sendBatch call, calls counts transport invocations. -/
structure QueueState where
  queue : List QueueItem
  isFlushing : Bool
  timerActive : Bool
  inflight : Option (List QueueItem)
  calls : Nat
deriving DecidableEq

/-- State right after the constructor (queue.ts 28-31): empty queue, not
flushing, periodic timer started. -/
def initialState : QueueState :=
  { queue := [], isFlushing := false, timerActive := true,
    inflight := none, calls := 0 }

/-- Synchronous prefix of Queue.flush (queue.ts 66-76): no-op when a flush
is in flight or the queue is empty; otherwise set the flag, snapshot the
whole queue as the batch, clear the live queue, and issue the transport
call. -/
def flushStart (s : QueueState) : QueueState :=
  if s.isFlushing || s.queue.isEmpty then s
  else
    { s with isFlushing := true, queue := [],
             inflight := some s.queue, calls := s.calls + 1 }

/-- Resumption of Queue.flush after sendBatch resolves (queue.ts 76-80 and
the finally block 96-98): the batch is discarded, the flag cleared. -/
def settleSuccess (s : QueueState) : QueueState :=
  { s with isFlushing := false, inflight := none }

/-- Increment of item.attempts in the retry loop (queue.ts 88). -/
def bump (it : QueueItem) : QueueItem :=
  { it with attempts := it.attempts + 1 }

/-- One iteration of the retry loop (queue.ts 87-95): increment attempts,
re-append to the live queue when still below the retry ceiling, otherwise
drop. -/
def retryStep (cfg : QueueConfig) (q : List QueueItem) (it : QueueItem) :
    List QueueItem :=
  let it2 := bump it
  if it2.attempts < cfg.retryAttempts then q ++ [it2] else q

/-- Resumption of Queue.flush after sendBatch rejects (queue.ts 81-98):
run the retry loop over the failed batch, then the finally block clears
the flag. -/
def settleFailure (cfg : QueueConfig) (s : QueueState) : QueueState :=
  match s.inflight with
  | none => s
  | some batch =>
      { s with queue := batch.foldl (retryStep cfg) s.queue,
               isFlushing := false, inflight := none }

/-- Queue.push (queue.ts 36-61): append a fresh item (attempts 0), then
the flush-threshold check (length at least flushAt starts a flush, whose
synchronous prefix runs immediately since the call is not awaited), then
the max-size check (shift one item off the head when the length exceeds
maxQueueSize). -/
def pushOp (cfg : QueueConfig) (s : QueueState) (e : Nat) (now : Nat) :
    QueueState :=
  let s1 := { s with queue := s.queue ++ [⟨e, 0, now⟩] }
  let s2 := if cfg.flushAt ≤ s1.queue.length then flushStart s1 else s1
  if cfg.maxQueueSize < s2.queue.length then
    { s2 with queue := s2.queue.tail }
  else s2

/-- A sequence of push calls, oldest first. -/
def pushSeq (cfg : QueueConfig) (s : QueueState)
    (evs : List (Nat × Nat)) : QueueState :=
  evs.foldl (fun st p => pushOp cfg st p.1 p.2) s

/-- An awaited flush() against a transport that rejects: the synchronous
prefix, then the failure resumption once the send settles.  When the flush
was a no-op there is nothing in flight and the settle step is vacuous. -/
def flushAwaitFail (cfg : QueueConfig) (s : QueueState) : QueueState :=
  settleFailure cfg (flushStart s)

/-- Queue.stopFlushInterval (queue.ts 156-164). -/
def stopTimerOp (s : QueueState) : QueueState :=
  { s with timerActive := false }

/-- Queue.clear (queue.ts 176-178). -/
def clearOp (s : QueueState) : QueueState :=
  { s with queue := [] }

/-- Queue.destroy (queue.ts 183-188): stop the timer, call flush without
awaiting it (so only its synchronous prefix runs before the next line),
then clear, then return.  This is the state at the moment destroy
returns; any send started by the flush is still in flight. -/
def destroyOp (s : QueueState) : QueueState :=
  clearOp (flushStart (stopTimerOp s))

/-- One push keeps the queue within the bound: if the length is at most
maxQueueSize before a push, it is again at most maxQueueSize after it. -/
theorem pushOp_length_le (cfg : QueueConfig) (s : QueueState) (e now : Nat)
    (h : s.queue.length ≤ cfg.maxQueueSize) :
    (pushOp cfg s e now).queue.length ≤ cfg.maxQueueSize := by
  simp only [pushOp, flushStart]
  repeat' split
  all_goals simp_all [List.length_tail]

/-- C1: for every sequence of push calls with no flush settling in
between, size() stays at most maxQueueSize after each call returns (the
bound holds after an arbitrary sequence from any state satisfying it, so
in particular after every prefix); when the flush-threshold check fires on
a push with no flush in flight, the whole appended queue is snapshot and
sent with no eviction (the eviction check runs after the flush check and
sees the emptied queue); when only the size check fires, one item is
evicted from the head (oldest first). -/
theorem push_bounds_queue_size :
    (∀ (cfg : QueueConfig) (s : QueueState) (evs : List (Nat × Nat)),
        s.queue.length ≤ cfg.maxQueueSize →
        (pushSeq cfg s evs).queue.length ≤ cfg.maxQueueSize) ∧
    (∀ (cfg : QueueConfig) (s : QueueState) (e now : Nat),
        s.isFlushing = false →
        cfg.flushAt ≤ s.queue.length + 1 →
        (pushOp cfg s e now).queue = [] ∧
        (pushOp cfg s e now).inflight = some (s.queue ++ [(⟨e, 0, now⟩ : QueueItem)]) ∧
        (pushOp cfg s e now).calls = s.calls + 1) ∧
    (∀ (cfg : QueueConfig) (s : QueueState) (e now : Nat),
        s.queue.length + 1 < cfg.flushAt →
        cfg.maxQueueSize < s.queue.length + 1 →
        (pushOp cfg s e now).queue = (s.queue ++ [(⟨e, 0, now⟩ : QueueItem)]).tail) := by
  refine ⟨?_, ?_, ?_⟩
  · intro cfg s evs
    induction evs generalizing s with
    | nil => intro h; exact h
    | cons p evs ih =>
        intro h
        exact ih _ (pushOp_length_le cfg s p.1 p.2 h)
  · intro cfg s e now hfl hfa
    simp [pushOp, flushStart, hfl, hfa]
  · intro cfg s e now hfa hmax
    have hfa2 : ¬ cfg.flushAt ≤ s.queue.length + 1 := by omega
    simp [pushOp, flushStart, hfa2, hmax]

/-- Witness for push_bounds_queue_size at concrete inputs. -/
theorem push_bounds_queue_size_witness :
    (pushSeq ⟨10, 2, 3⟩ initialState [(1, 0), (2, 0), (3, 0), (4, 0)]).queue.length ≤ 2 ∧
    (pushOp ⟨1, 5, 3⟩ initialState 5 0).queue = [] ∧
    (pushOp ⟨10, 0, 3⟩ initialState 7 0).queue =
      (initialState.queue ++ [(⟨7, 0, 0⟩ : QueueItem)]).tail :=
  ⟨push_bounds_queue_size.1 ⟨10, 2, 3⟩ initialState _ (by decide),
   (push_bounds_queue_size.2.1 ⟨1, 5, 3⟩ initialState 5 0 rfl (by decide)).1,
   push_bounds_queue_size.2.2 ⟨10, 0, 3⟩ initialState 7 0 (by decide) (by decide)⟩

/-- A state with one queued item and a flush already in flight. -/
def stFlushing : QueueState :=
  { queue := [⟨1, 0, 0⟩], isFlushing := true, timerActive := true,
    inflight := some [⟨0, 0, 0⟩], calls := 1 }

/-- An idle state with one queued item. -/
def stIdleOne : QueueState :=
  { queue := [⟨1, 0, 0⟩], isFlushing := false, timerActive := true,
    inflight := none, calls := 0 }

/-- C2: the synchronous prefix of flush() is a no-op (no transport call,
state unchanged) when a flush is already in flight or the queue is empty;
starting from an idle nonempty state, a flush() followed by a second
flush() issued while the first is still in flight makes exactly one
transport call, with the whole queue snapshot in flight. -/
theorem flush_noop_and_mutual_exclusion (s : QueueState) :
    (s.isFlushing = true → flushStart s = s) ∧
    (s.queue = [] → flushStart s = s) ∧
    (s.isFlushing = false → s.queue ≠ [] →
      (flushStart (flushStart s)).calls = s.calls + 1 ∧
      (flushStart (flushStart s)).inflight = some s.queue ∧
      (flushStart (flushStart s)).queue = []) := by
  refine ⟨?_, ?_, ?_⟩
  · intro h; simp [flushStart, h]
  · intro h; simp [flushStart, h]
  · intro h1 h2
    simp [flushStart, h1, h2]

/-- Witness for flush_noop_and_mutual_exclusion at concrete states. -/
theorem flush_noop_and_mutual_exclusion_witness :
    flushStart stFlushing = stFlushing ∧
    flushStart initialState = initialState ∧
    (flushStart (flushStart stIdleOne)).calls = stIdleOne.calls + 1 :=
  ⟨(flush_noop_and_mutual_exclusion stFlushing).1 rfl,
   (flush_noop_and_mutual_exclusion initialState).2.1 rfl,
   ((flush_noop_and_mutual_exclusion stIdleOne).2.2 rfl (by decide)).1⟩

/-- The retry loop of a failed flush equals appending, to the live queue,
the batch with every attempts counter incremented, filtered to the items
still below the retry ceiling. -/
theorem retry_foldl (cfg : QueueConfig) (batch : List QueueItem) :
    ∀ q : List QueueItem,
      batch.foldl (retryStep cfg) q =
        q ++ (batch.map bump).filter (fun it => it.attempts < cfg.retryAttempts) := by
  induction batch with
  | nil => intro q; simp
  | cons it batch ih =>
      intro q
      by_cases h : (bump it).attempts < cfg.retryAttempts
      · simp [retryStep, h, ih, List.filter_cons]
      · simp [retryStep, h, ih, List.filter_cons]

/-- C3: when the in-flight send fails, every item of the failed batch has
attempts incremented by exactly one; the items whose new count is still
below retryAttempts are re-appended, in order, to the tail of the live
queue exactly once each (the count identity rules out duplication and
loss), the rest are dropped; and the flushing flag is cleared on failure
as on success. -/
theorem failed_flush_requeues_batch (cfg : QueueConfig) (s : QueueState)
    (batch : List QueueItem) (h : s.inflight = some batch) :
    (settleFailure cfg s).queue =
      s.queue ++ (batch.map bump).filter (fun it => it.attempts < cfg.retryAttempts) ∧
    (∀ it : QueueItem,
        (settleFailure cfg s).queue.count it =
          s.queue.count it +
            ((batch.map bump).filter
              (fun it2 => it2.attempts < cfg.retryAttempts)).count it) ∧
    (settleFailure cfg s).isFlushing = false ∧
    (settleSuccess s).isFlushing = false := by
  have hq : (settleFailure cfg s).queue =
      s.queue ++ (batch.map bump).filter (fun it => it.attempts < cfg.retryAttempts) := by
    simp [settleFailure, h, retry_foldl]
  refine ⟨hq, ?_, ?_, rfl⟩
  · intro it
    rw [hq, List.count_append]
  · simp [settleFailure, h]

/-- A state whose in-flight batch holds one fresh item and one item on its
last allowed attempt, with one item pushed meanwhile. -/
def stInflightBatch : QueueState :=
  { queue := [⟨9, 0, 0⟩], isFlushing := true, timerActive := true,
    inflight := some [⟨1, 0, 0⟩, ⟨2, 2, 0⟩], calls := 1 }

/-- Witness for failed_flush_requeues_batch at a concrete state. -/
theorem failed_flush_requeues_batch_witness :
    (settleFailure ⟨5, 10, 3⟩ stInflightBatch).queue =
      stInflightBatch.queue ++
        (([⟨1, 0, 0⟩, ⟨2, 2, 0⟩] : List QueueItem).map bump).filter
          (fun it => it.attempts < (⟨5, 10, 3⟩ : QueueConfig).retryAttempts) ∧
    (settleFailure ⟨5, 10, 3⟩ stInflightBatch).isFlushing = false :=
  ⟨(failed_flush_requeues_batch ⟨5, 10, 3⟩ stInflightBatch _ rfl).1,
   (failed_flush_requeues_batch ⟨5, 10, 3⟩ stInflightBatch _ rfl).2.2.1⟩

/-- Configuration of the end-to-end retry scenario: flushAt 5 (so a single
push does not auto-flush), maxQueueSize 10, retryAttempts 3. -/
def cfg4 : QueueConfig := ⟨5, 10, 3⟩

/-- The end-to-end retry scenario: push one event, then four sequential
awaited flush() calls against a transport that fails every call. -/
def scenario4 : QueueState :=
  flushAwaitFail cfg4 (flushAwaitFail cfg4 (flushAwaitFail cfg4
    (flushAwaitFail cfg4 (pushOp cfg4 initialState 1 0))))

/-- C4 counterexample: in the retry scenario the transport is called 3
times, not 4 — the first three flushes send and fail (attempts 1, 2, 3),
the item is dropped at the ceiling, and the fourth flush is a no-op on the
empty queue. -/
theorem retry_scenario_three_calls_not_four :
    ¬ (scenario4.queue.length = 0 ∧ scenario4.calls = 4) := by decide

/-- C4 amended: with retryAttempts 3 and a transport failing every call,
after pushing one event and flushing four times sequentially, size() is 0
and the transport was called exactly 3 times. -/
theorem retry_scenario_exhausts_after_three :
    scenario4.queue.length = 0 ∧ scenario4.calls = 3 := by decide

/-- An idle state holding 2 unsent events. -/
def stTwo : QueueState :=
  { queue := [⟨1, 0, 0⟩, ⟨2, 0, 0⟩], isFlushing := false, timerActive := true,
    inflight := none, calls := 0 }

/-- C8 counterexample: destroy() does not wait for the final flush to
settle — on a queue holding 2 unsent events, at the moment destroy()
returns the flushing flag is still set and the batch is still in flight
with the transport unsettled. -/
theorem destroy_returns_before_settle :
    (destroyOp stTwo).isFlushing = true ∧
    (destroyOp stTwo).inflight = some [⟨1, 0, 0⟩, ⟨2, 0, 0⟩] := by decide

/-- C8 amended: destroy() stops the periodic timer, synchronously starts
at most one final best-effort flush (exactly one transport call when the
queue is nonempty and idle, none otherwise), clears the queue, and returns
without waiting for the send to settle; size() is 0 immediately after
destroy() returns, hence in particular 0 after the final send succeeds. -/
theorem destroy_stops_timer_and_flushes_once (s : QueueState) :
    (destroyOp s).timerActive = false ∧
    (destroyOp s).queue = [] ∧
    (settleSuccess (destroyOp s)).queue = [] ∧
    (s.isFlushing = false → s.queue ≠ [] →
      (destroyOp s).calls = s.calls + 1 ∧ (destroyOp s).isFlushing = true) ∧
    (s.isFlushing = true ∨ s.queue = [] → (destroyOp s).calls = s.calls) := by
  refine ⟨?_, rfl, rfl, ?_, ?_⟩
  · simp only [destroyOp, clearOp, flushStart, stopTimerOp]
    split <;> rfl
  · intro h1 h2
    simp [destroyOp, clearOp, flushStart, stopTimerOp, h1, h2]
  · intro h
    rcases h with h | h <;> simp [destroyOp, clearOp, flushStart, stopTimerOp, h]

/-- Witness for destroy_stops_timer_and_flushes_once at concrete states. -/
theorem destroy_stops_timer_and_flushes_once_witness :
    (destroyOp stTwo).timerActive = false ∧
    (destroyOp stTwo).queue = [] ∧
    (destroyOp stTwo).calls = stTwo.calls + 1 ∧
    (destroyOp initialState).calls = initialState.calls :=
  ⟨(destroy_stops_timer_and_flushes_once stTwo).1,
   (destroy_stops_timer_and_flushes_once stTwo).2.1,
   ((destroy_stops_timer_and_flushes_once stTwo).2.2.2.1 rfl (by decide)).1,
   (destroy_stops_timer_and_flushes_once initialState).2.2.2.2 (Or.inr rfl)⟩

/-- Configuration exhibiting the missing eviction check on the retry path:
flushAt 1, maxQueueSize 2, retryAttempts 5. -/
def cfg9 : QueueConfig := ⟨1, 2, 5⟩

/-- Interleaving for C9: the first push starts a flush (its item goes in
flight), two more events are pushed while the send is pending, then the
send fails and the survivor is re-appended with no size check. -/
def scenario9 : QueueState :=
  settleFailure cfg9
    (pushOp cfg9 (pushOp cfg9 (pushOp cfg9 initialState 1 0) 2 0) 3 0)

/-- C9: the maxQueueSize bound is enforced only inside push() — after a
failed flush settles, the re-appended survivors plus the events pushed
while the send was in flight make size() strictly exceed maxQueueSize
(3 items against a bound of 2). -/
theorem retry_path_exceeds_max_queue_size :
    cfg9.maxQueueSize < scenario9.queue.length ∧
    scenario9.queue.length = 3 ∧
    scenario9.isFlushing = false := by decide

/-
Plugin pipeline (src/core/analytics.ts).  Plugins carry a stage tag, an
asynchronous load() whose outcome we record as a boolean, and an optional
handler per event kind, looked up dynamically by the event's type
(analytics.ts 137).  The plugins map is a JS Map, i.e. an insertion-ordered
association, modelled as a list with in-place replacement on name clash.
A handler's promise either resolves with a transformed event or a null
result (a veto), or rejects; processEvent catches the rejection, logs, and
keeps the pre-failure running value (analytics.ts 139-144).
-/

/-- Plugin stage tags (analytics.ts 84). -/
inductive PluginType where
  | before
  | enrichment
  | destination
  | after
deriving DecidableEq

/-- Stage ranks: the typeOrder table of loadPlugins (analytics.ts 84). -/
def typeOrder : PluginType → Nat
  | .before => 0
  | .enrichment => 1
  | .destination => 2
  | .after => 3

/-- The six event kinds (src/types). -/
inductive EventType where
  | identify
  | track
  | page
  | screen
  | alias
  | group
deriving DecidableEq

/-- An analytics event as the pipeline sees it: its kind plus an opaque
payload standing for the remaining fields. -/
structure Event where
  type : EventType
  payload : Nat
deriving DecidableEq

/-- Outcome of awaiting one plugin handler: the promise resolves with a
transformed event or a null result (veto), or it rejects/throws. -/
inductive HandlerResult where
  | ok (r : Option Event)
  | thrown

/-- A plugin (src/types): unique name, stage tag, whether its load()
resolves, and an optional handler per event kind. -/
structure PluginDef where
  name : String
  type : PluginType
  loadOk : Bool
  handlers : EventType → Option (Event → HandlerResult)

/-- JS Map.set on the plugins map (analytics.ts 41, 90, 308): replace the
value in place when the key is present, else append. -/
def mapSet (m : List PluginDef) (p : PluginDef) : List PluginDef :=
  if m.any (fun q => q.name == p.name) then
    m.map (fun q => if q.name == p.name then p else q)
  else m ++ [p]

/-- Stage-rank comparison used by the sort at analytics.ts 85. -/
def rankLe (a b : PluginDef) : Prop :=
  typeOrder a.type ≤ typeOrder b.type

instance : DecidableRel rankLe := fun a b =>
  Nat.decLe (typeOrder a.type) (typeOrder b.type)

instance : IsTotal PluginDef rankLe :=
  ⟨fun a b => Nat.le_total (typeOrder a.type) (typeOrder b.type)⟩

instance : IsTrans PluginDef rankLe :=
  ⟨fun _ _ _ => Nat.le_trans⟩

/-- The sort at analytics.ts 85: Array.prototype.sort with comparator
typeOrder a - typeOrder b.  The JS sort is stable, so it is modelled as a
stable insertion sort on the stage-rank preorder. -/
def sortPlugins (ps : List PluginDef) : List PluginDef :=
  List.insertionSort rankLe ps

/-- Analytics.loadPlugins (analytics.ts 80-101): sort once by stage rank,
then for each plugin in order await load() and insert it into the plugins
map only when load() resolves; a rejected load() is logged and the plugin
excluded from the active set. -/
def loadPluginsFn (ps : List PluginDef) : List PluginDef :=
  (sortPlugins ps).foldl (fun m p => if p.loadOk then mapSet m p else m) []

/-- Analytics.register (analytics.ts 307-310): insert into the plugins
map synchronously, then call load() without awaiting it and without
handling its rejection — the map at register()'s return contains the
plugin whatever becomes of its load(). -/
def registerFn (m : List PluginDef) (p : PluginDef) : List PluginDef :=
  mapSet m p

/-- Analytics.processEvent (analytics.ts 131-148), instrumented with the
trace of invoked handlers: loop over the plugins map, break when the
running value is null, look the handler up by the original event's type,
catch a throwing handler (log only, keeping the pre-failure running
value).  Returns the final value and the names of the plugins whose
handler was invoked, in invocation order. -/
def processEventAux (et : EventType) :
    List PluginDef → Option Event → Option Event × List String
  | [], cur => (cur, [])
  | p :: ps, cur =>
    match cur with
    | none => (none, [])
    | some e =>
      match p.handlers et with
      | none => processEventAux et ps (some e)
      | some h =>
          let cur2 : Option Event :=
            match h e with
            | .ok r => r
            | .thrown => some e
          let rest := processEventAux et ps cur2
          (rest.1, p.name :: rest.2)

/-- Run one event through the plugin pipeline (analytics.ts 131-148). -/
def processEvent (e : Event) (ps : List PluginDef) :
    Option Event × List String :=
  processEventAux e.type ps (some e)

/-- Tail of Analytics.track and its five siblings (analytics.ts 213-216):
push onto the delivery queue only when the pipeline returned an event. -/
def trackPush (ps : List PluginDef) (e : Event) (q : List Event) :
    List Event :=
  match (processEvent e ps).1 with
  | some e2 => q ++ [e2]
  | none => q

/-- Once the running value is null the loop only breaks. -/
theorem processEventAux_none (et : EventType) :
    ∀ ps : List PluginDef, processEventAux et ps none = (none, []) := by
  intro ps
  cases ps with
  | nil => rfl
  | cons p ps => rfl

/-- The pipeline is a fold: processing a concatenated plugin list runs the
first part, then feeds its result to the second part. -/
theorem processEventAux_append (et : EventType) (ps1 ps2 : List PluginDef) :
    ∀ cur : Option Event,
      processEventAux et (ps1 ++ ps2) cur =
        ((processEventAux et ps2 (processEventAux et ps1 cur).1).1,
          (processEventAux et ps1 cur).2 ++
            (processEventAux et ps2 (processEventAux et ps1 cur).1).2) := by
  induction ps1 with
  | nil => intro cur; simp [processEventAux]
  | cons p ps1 ih =>
      intro cur
      cases cur with
      | none => simp [processEventAux, processEventAux_none]
      | some e =>
          cases hh : p.handlers et with
          | none => simp [processEventAux, hh, ih]
          | some h => simp [processEventAux, hh, ih]

/-- Inserting a plugin of stage t into a list prefixes it to the stage-t
elements: the skipped prefix consists of strictly lower ranks only. -/
theorem filter_orderedInsert_eq (t : PluginType) (a : PluginDef)
    (ha : a.type = t) :
    ∀ l : List PluginDef,
      (l.orderedInsert rankLe a).filter (fun p => p.type == t) =
        a :: l.filter (fun p => p.type == t) := by
  intro l
  induction l with
  | nil => simp [List.orderedInsert, ha]
  | cons b l ih =>
      by_cases hr : rankLe a b
      · simp [List.orderedInsert, hr, ha]
      · have hb : ¬ b.type = t := by
          intro hbt
          apply hr
          simp [rankLe, ha, hbt]
        simp [List.orderedInsert, hr, List.filter_cons, hb, ih]

/-- Inserting a plugin of another stage leaves the stage-t elements
unchanged. -/
theorem filter_orderedInsert_ne (t : PluginType) (a : PluginDef)
    (ha : ¬ a.type = t) :
    ∀ l : List PluginDef,
      (l.orderedInsert rankLe a).filter (fun p => p.type == t) =
        l.filter (fun p => p.type == t) := by
  intro l
  induction l with
  | nil => simp [List.orderedInsert, ha]
  | cons b l ih =>
      by_cases hr : rankLe a b
      · simp [List.orderedInsert, hr, List.filter_cons, ha]
      · simp [List.orderedInsert, hr, List.filter_cons, ih]

/-- The load-time sort is stable: it preserves registration order within
each stage. -/
theorem sortPlugins_filter_stage (t : PluginType) :
    ∀ ps : List PluginDef,
      (sortPlugins ps).filter (fun p => p.type == t) =
        ps.filter (fun p => p.type == t) := by
  intro ps
  induction ps with
  | nil => rfl
  | cons a ps ih =>
      simp only [sortPlugins] at ih
      show (List.orderedInsert rankLe a (List.insertionSort rankLe ps)).filter _ = _
      by_cases ha : a.type = t
      · rw [filter_orderedInsert_eq t a ha]
        simp [List.filter_cons, ha, ih]
      · rw [filter_orderedInsert_ne t a ha]
        simp [List.filter_cons, ha, ih]

/-- An identity handler defined for every event kind. -/
def handlerId : EventType → Option (Event → HandlerResult) :=
  fun _ => some (fun e => .ok (some e))

/-- An after-stage plugin. -/
def pAfter : PluginDef :=
  { name := "logger", type := .after, loadOk := true, handlers := handlerId }

/-- A before-stage plugin. -/
def pBefore : PluginDef :=
  { name := "validator", type := .before, loadOk := true, handlers := handlerId }

/-- An enrichment-stage plugin. -/
def pEnrich : PluginDef :=
  { name := "device", type := .enrichment, loadOk := true, handlers := handlerId }

/-- A track event fed to the pipeline. -/
def e0 : Event := { type := .track, payload := 0 }

/-- C5: plugins are ordered once at load time by stage rank
before(0), enrichment(1), destination(2), after(3), a stable sort that
preserves registration order within a stage, and processEvent invokes the
matching handlers in exactly that order; in particular three plugins of
stages after/before/enrichment registered in that (out of declaration)
order are invoked before first, then enrichment, then after. -/
theorem plugin_pipeline_stage_order :
    (∀ ps : List PluginDef, List.Sorted rankLe (sortPlugins ps)) ∧
    (∀ (ps : List PluginDef) (t : PluginType),
        (sortPlugins ps).filter (fun p => p.type == t) =
          ps.filter (fun p => p.type == t)) ∧
    (processEvent e0 (loadPluginsFn [pAfter, pBefore, pEnrich])).2 =
      ["validator", "device", "logger"] := by
  refine ⟨?_, ?_, ?_⟩
  · intro ps
    exact List.sorted_insertionSort rankLe ps
  · intro ps t
    exact sortPlugins_filter_stage t ps
  · rfl

/-- An enrichment plugin that vetoes every event (returns a null
result). -/
def pVeto : PluginDef :=
  { name := "consent", type := .enrichment, loadOk := true,
    handlers := fun _ => some (fun _ => .ok none) }

/-- A destination plugin whose handler always throws. -/
def pThrow : PluginDef :=
  { name := "ga", type := .destination, loadOk := true,
    handlers := fun _ => some (fun _ => .thrown) }

/-- C6: when a plugin handler returns a null result, the running value
becomes null, every later plugin is skipped (the trace ends at the vetoing
plugin), the pipeline returns no event, and track() never calls push on
the delivery queue — the event is dropped entirely. -/
theorem veto_drops_event (e e1 : Event) (ps1 ps2 : List PluginDef)
    (p : PluginDef) (h : Event → HandlerResult)
    (h1 : (processEventAux e.type ps1 (some e)).1 = some e1)
    (h2 : p.handlers e.type = some h)
    (h3 : h e1 = .ok none) :
    (processEvent e (ps1 ++ p :: ps2)).1 = none ∧
    (processEvent e (ps1 ++ p :: ps2)).2 =
      (processEventAux e.type ps1 (some e)).2 ++ [p.name] ∧
    ∀ q : List Event, trackPush (ps1 ++ p :: ps2) e q = q := by
  have hstep : processEventAux e.type (p :: ps2) (some e1) = (none, [p.name]) := by
    simp [processEventAux, h2, h3, processEventAux_none]
  have hfull : processEvent e (ps1 ++ p :: ps2) =
      (none, (processEventAux e.type ps1 (some e)).2 ++ [p.name]) := by
    rw [processEvent, processEventAux_append, h1, hstep]
  refine ⟨by rw [hfull], by rw [hfull], ?_⟩
  intro q
  rw [trackPush, hfull]

/-- Witness for veto_drops_event: validator, then a vetoing consent
plugin, then logger — the event never reaches the queue. -/
theorem veto_drops_event_witness :
    (processEvent e0 ([pBefore] ++ pVeto :: [pAfter])).1 = none ∧
    trackPush ([pBefore] ++ pVeto :: [pAfter]) e0 [] = [] :=
  ⟨(veto_drops_event e0 e0 [pBefore] [pAfter] pVeto
      (fun _ => HandlerResult.ok none) rfl rfl rfl).1,
   (veto_drops_event e0 e0 [pBefore] [pAfter] pVeto
      (fun _ => HandlerResult.ok none) rfl rfl rfl).2.2 []⟩

/-- C7: a plugin handler that throws is logged and skipped — the next
plugin receives the value produced by the last successful handler, the
pipeline's outcome is as if the faulty plugin were absent (the event is
not lost, the pipeline is not aborted), and the caller-facing push
behaviour of track() is unchanged; no exception escapes processEvent,
which stays a total function. -/
theorem plugin_failure_isolated (e e1 : Event) (ps1 ps2 : List PluginDef)
    (p : PluginDef) (h : Event → HandlerResult)
    (h1 : (processEventAux e.type ps1 (some e)).1 = some e1)
    (h2 : p.handlers e.type = some h)
    (h3 : h e1 = .thrown) :
    processEventAux e.type (p :: ps2) (some e1) =
      ((processEventAux e.type ps2 (some e1)).1,
        p.name :: (processEventAux e.type ps2 (some e1)).2) ∧
    (processEvent e (ps1 ++ p :: ps2)).1 = (processEvent e (ps1 ++ ps2)).1 ∧
    ∀ q : List Event,
      trackPush (ps1 ++ p :: ps2) e q = trackPush (ps1 ++ ps2) e q := by
  have hstep : processEventAux e.type (p :: ps2) (some e1) =
      ((processEventAux e.type ps2 (some e1)).1,
        p.name :: (processEventAux e.type ps2 (some e1)).2) := by
    simp [processEventAux, h2, h3]
  have hfull : (processEvent e (ps1 ++ p :: ps2)).1 =
      (processEvent e (ps1 ++ ps2)).1 := by
    rw [processEvent, processEvent, processEventAux_append,
      processEventAux_append, h1, hstep]
  refine ⟨hstep, hfull, ?_⟩
  intro q
  rw [trackPush, trackPush, hfull]

/-- Witness for plugin_failure_isolated: validator, then a throwing
destination plugin, then logger — same outcome as without the faulty
plugin. -/
theorem plugin_failure_isolated_witness :
    (processEvent e0 ([pBefore] ++ pThrow :: [pAfter])).1 =
      (processEvent e0 ([pBefore] ++ [pAfter])).1 ∧
    trackPush ([pBefore] ++ pThrow :: [pAfter]) e0 [] =
      trackPush ([pBefore] ++ [pAfter]) e0 [] :=
  ⟨(plugin_failure_isolated e0 e0 [pBefore] [pAfter] pThrow
      (fun _ => HandlerResult.thrown) rfl rfl rfl).2.1,
   (plugin_failure_isolated e0 e0 [pBefore] [pAfter] pThrow
      (fun _ => HandlerResult.thrown) rfl rfl rfl).2.2 []⟩

/-- Membership after a Map.set step: the element is the inserted plugin or
was already present. -/
theorem mem_mapSet_elim (q p : PluginDef) (m : List PluginDef)
    (hq : q ∈ mapSet m p) : q = p ∨ q ∈ m := by
  unfold mapSet at hq
  split at hq
  · rcases List.mem_map.mp hq with ⟨x, hx, hxq⟩
    by_cases hb : (x.name == p.name) = true
    · rw [if_pos hb] at hxq
      exact Or.inl hxq.symm
    · rw [if_neg hb] at hxq
      exact Or.inr (hxq ▸ hx)
  · rcases List.mem_append.mp hq with hq | hq
    · exact Or.inr hq
    · exact Or.inl (List.mem_singleton.mp hq)

/-- The constructor load loop only ever inserts plugins whose load()
resolved. -/
theorem loadLoop_members_loaded :
    ∀ (l m : List PluginDef),
      (∀ q ∈ m, q.loadOk = true) →
      ∀ q ∈ l.foldl (fun m p => if p.loadOk then mapSet m p else m) m,
        q.loadOk = true := by
  intro l
  induction l with
  | nil => intro m hm; exact hm
  | cons p l ih =>
      intro m hm
      by_cases hp : p.loadOk = true
      · simp only [List.foldl_cons, if_pos hp]
        refine ih (mapSet m p) ?_
        intro q hq
        rcases mem_mapSet_elim q p m hq with h | h
        · rw [h]; exact hp
        · exact hm q h
      · simp only [List.foldl_cons, if_neg hp]
        exact ih m hm

/-- C10: register() inserts the plugin into the active plugins map
synchronously, without gating on its load() outcome — the plugin is in the
map at register()'s return (hence eligible to process events before
load() resolves) and stays there when load() rejects; the constructor's
loadPlugins path, by contrast, awaits each load() and only admits plugins
whose load() resolved, so every member of its active map has a resolved
load and a plugin with a rejected load is excluded. -/
theorem register_bypasses_load_gate :
    (∀ (m : List PluginDef) (p : PluginDef), p ∈ registerFn m p) ∧
    (∀ (ps : List PluginDef) (q : PluginDef),
        q ∈ loadPluginsFn ps → q.loadOk = true) ∧
    (∀ (ps : List PluginDef) (p : PluginDef),
        p.loadOk = false → p ∉ loadPluginsFn ps) := by
  have hmem : ∀ (m : List PluginDef) (p : PluginDef), p ∈ registerFn m p := by
    intro m p
    unfold registerFn mapSet
    split
    · next hany =>
        rcases List.any_eq_true.mp hany with ⟨x, hx, hxe⟩
        exact List.mem_map.mpr ⟨x, hx, by rw [if_pos hxe]⟩
    · exact List.mem_append.mpr (Or.inr (List.mem_singleton.mpr rfl))
  have hload : ∀ (ps : List PluginDef) (q : PluginDef),
      q ∈ loadPluginsFn ps → q.loadOk = true := by
    intro ps q hq
    exact loadLoop_members_loaded (sortPlugins ps) [] (by intro q hq; cases hq) q hq
  refine ⟨hmem, hload, ?_⟩
  intro ps p hp hmem2
  rw [hload ps p hmem2] at hp
  cases hp

/-- A plugin whose load() rejects. -/
def pBad : PluginDef :=
  { name := "broken", type := .before, loadOk := false,
    handlers := fun _ => none }

/-- Witness for register_bypasses_load_gate: a plugin with a rejecting
load() is in the map after register() but absent from the constructor's
active set; a plugin admitted by the constructor has a resolved load. -/
theorem register_bypasses_load_gate_witness :
    pBad ∈ registerFn [] pBad ∧
    pBad ∉ loadPluginsFn [pBad] ∧
    pBefore.loadOk = true :=
  ⟨register_bypasses_load_gate.1 [] pBad,
   register_bypasses_load_gate.2.2 [pBad] pBad rfl,
   register_bypasses_load_gate.2.1 [pBefore] pBefore
     (show pBefore ∈ [pBefore] from List.mem_singleton.mpr rfl)⟩

end StickyQR
